import Mathlib

/-!
Verification of the SentinelX behavioral-risk pipeline.

The Python sources are shallowly embedded: floats become exact rationals
(`ℚ`), mutable objects become explicit state records, and a Python
statement that can raise an exception (a float division whose denominator
may be zero) is embedded as an `Option`-valued function where `none`
models the raised `ZeroDivisionError`.
-/

namespace SentinelX

/-- `client/feature_extractor.py`, dataclass `FeatureVector`. -/
structure FeatureVector where
  avg_typing_speed : ℚ
  avg_idle_duration : ℚ
  focus_loss_count : ℕ
  avg_mouse_speed : ℚ
  inter_key_interval : ℚ
  window_start : ℚ
  window_end : ℚ
  key_press_count : ℕ
deriving DecidableEq

/-- `client/baseline_builder.py`, dataclass `BaselineProfile`. -/
structure BaselineProfile where
  avg_typing_speed : ℚ
  avg_idle_duration : ℚ
  avg_focus_rate : ℚ
deriving DecidableEq

/-- `client/activity_shift_detector.py`, dataclass `AnomalyScores`. -/
structure AnomalyScores where
  idle_burst : ℚ
  focus_instability : ℚ
  behavioral_drift : ℚ
  overall : ℚ
deriving DecidableEq

/-- `ActivityShiftDetector.__init__`: the detector's state relevant to
score computation is its optional baseline.  (The `_recent_scores`
history, source lines 122–124, is appended to but never read when
computing the returned scores, so it is not carried here.) -/
structure ActivityShiftDetector where
  baseline : Option BaselineProfile
deriving DecidableEq

/-- `ActivityShiftDetector.__init__`: `self.idle_multiplier = 1.2`. -/
def idle_multiplier : ℚ := 1.2

/-- `ActivityShiftDetector.__init__`: `self.typing_speed_multiplier = 1.3`. -/
def typing_speed_multiplier : ℚ := 1.3

/-- `ActivityShiftDetector.__init__`: `self.focus_rate_multiplier = 1.5`. -/
def focus_rate_multiplier : ℚ := 1.5

/-- `ActivityShiftDetector.__init__`: `self.drift_threshold = 0.3`. -/
def drift_threshold : ℚ := 0.3

/-- `ActivityShiftDetector.__init__`: `self.idle_burst_scale = 70.0`. -/
def idle_burst_scale : ℚ := 70

/-- `ActivityShiftDetector.__init__`: `self.focus_scale = 70.0`. -/
def focus_scale : ℚ := 70

/-- `ActivityShiftDetector.__init__`: `self.drift_scale = 70.0`. -/
def drift_scale : ℚ := 70

/-- `ActivityShiftDetector._detect_idle_burst` (source lines 137–176).
The division `features.avg_typing_speed / baseline.avg_typing_speed` is
reached whenever both threshold comparisons succeed; when the baseline
typing speed is `0` Python raises `ZeroDivisionError`, modelled as
`none`. -/
def detectIdleBurst (b : BaselineProfile) (f : FeatureVector) : Option ℚ :=
  let idle_threshold := b.avg_idle_duration * idle_multiplier
  if idle_threshold < f.avg_idle_duration then
    let typing_threshold := b.avg_typing_speed * typing_speed_multiplier
    if typing_threshold < f.avg_typing_speed then
      if b.avg_typing_speed = 0 then
        none
      else
        let r := f.avg_typing_speed / b.avg_typing_speed
        let raw_score := (r - typing_speed_multiplier) * 100
        some (min idle_burst_scale (max 0 raw_score))
    else
      some 0
  else
    some 0

/-- `ActivityShiftDetector._detect_focus_instability` (lines 178–219).
Both divisions are guarded by the source (`window_duration > 0`,
`avg_focus_rate > 0`), so this rule is total. -/
def detectFocusInstability (b : BaselineProfile) (f : FeatureVector) : ℚ :=
  let window_len := f.window_end - f.window_start
  let focus_rate := if 0 < window_len then (f.focus_loss_count : ℚ) * (60 / window_len) else 0
  let focus_threshold := b.avg_focus_rate * focus_rate_multiplier
  if focus_threshold < focus_rate ∧ 0 < b.avg_focus_rate then
    let r := focus_rate / b.avg_focus_rate
    let raw_score := (r - focus_rate_multiplier) * 70
    min focus_scale (max 0 raw_score)
  else
    0

/-- `ActivityShiftDetector._detect_behavioral_drift` (lines 221–258).
The division is guarded by the early return when
`avg_typing_speed <= 0`, so this rule is total. -/
def detectBehavioralDrift (b : BaselineProfile) (f : FeatureVector) : ℚ :=
  if b.avg_typing_speed ≤ 0 then
    0
  else
    let deviation := |f.avg_typing_speed - b.avg_typing_speed|
    let deviation_pct := deviation / b.avg_typing_speed
    if drift_threshold < deviation_pct then
      let raw_score := (deviation_pct - drift_threshold) * 200
      min drift_scale (max 0 raw_score)
    else
      0

/-- `ActivityShiftDetector.compute_scores` (lines 92–135): returns
all-zero scores when no baseline is set, otherwise applies the three
rules and takes the maximum; `none` models the `ZeroDivisionError`
escaping from `_detect_idle_burst`. -/
def computeScores (d : ActivityShiftDetector) (f : FeatureVector) : Option AnomalyScores :=
  match d.baseline with
  | none => some ⟨0, 0, 0, 0⟩
  | some b =>
    match detectIdleBurst b f with
    | none => none
    | some ib =>
      let fi := detectFocusInstability b f
      let bd := detectBehavioralDrift b f
      some ⟨ib, fi, bd, max ib (max fi bd)⟩

/-- `client/risk_engine.py`, `RiskEngine` state: the smoothing window,
the bounded raw-score history (`deque(maxlen=smoothing_window)`, oldest
first), and the two cached values. -/
structure RiskEngine where
  smoothing_window : ℕ
  risk_history : List ℚ
  last_raw : ℚ
  last_smoothed : ℚ
deriving DecidableEq

/-- `RiskEngine.__init__(smoothing_window)`. -/
def mkRiskEngine (w : ℕ) : RiskEngine := ⟨w, [], 0, 0⟩

/-- `deque(maxlen=m).append(x)`: append on the right, discarding from
the left whatever exceeds the capacity `m`. -/
def pushBounded (m : ℕ) (hist : List ℚ) (x : ℚ) : List ℚ :=
  (hist ++ [x]).drop (hist.length + 1 - m)

/-- `RiskEngine.compute_risk` (lines 39–91): weighted clamped raw score,
bounded-history append, then the recency-biased smoothing.  Returns the
smoothed value together with the updated engine state. -/
def computeRisk (e : RiskEngine) (s : AnomalyScores) : ℚ × RiskEngine :=
  let raw := max 0 (min 100
    (0.4 * s.idle_burst + 0.35 * s.focus_instability + 0.25 * s.behavioral_drift))
  let hist := pushBounded e.smoothing_window e.risk_history raw
  let smoothed :=
    if 0 < hist.length then
      if hist.length = 1 then raw
      else 0.6 * raw + 0.4 * (hist.dropLast.sum / ((hist.length : ℚ) - 1))
    else raw
  (smoothed, ⟨e.smoothing_window, hist, raw, smoothed⟩)

/-- `RiskEngine.raw_risk` property (lines 98–101). -/
def rawRisk (e : RiskEngine) : ℚ := e.last_raw

/-- `RiskEngine.current_risk` property (lines 93–96). -/
def currentRisk (e : RiskEngine) : ℚ := e.last_smoothed

/-- The clamped weighted raw risk, as recomputed by `computeRisk`. -/
def rawRiskOf (s : AnomalyScores) : ℚ :=
  max 0 (min 100
    (0.4 * s.idle_burst + 0.35 * s.focus_instability + 0.25 * s.behavioral_drift))

/-- `client/baseline_builder.py`, `BaselineBuilder` state.  The fields
`samples_observed` (number of vectors appended to the history since the
current calibration started) and `forced_timeout` (the frozen baseline
was built by the time-is-up branch of `update`) are ghost fields: they
are written but never read by the embedded operations, and serve only to
state the calibration invariant. -/
structure BaselineBuilder where
  calibration_duration : ℚ
  feature_history : List FeatureVector
  baseline : Option BaselineProfile
  calibration_start : Option ℚ
  samples_observed : ℕ
  forced_timeout : Bool
deriving DecidableEq

/-- `BaselineBuilder.__init__`: `self._min_samples_required = 5`. -/
def min_samples_required : ℕ := 5

/-- `BaselineBuilder.__init__(calibration_duration)`. -/
def mkBuilder (d : ℚ) : BaselineBuilder := ⟨d, [], none, none, 0, false⟩

/-- `BaselineBuilder.start_calibration` (lines 47–54). -/
def startCalibration (b : BaselineBuilder) (t : ℚ) : BaselineBuilder :=
  { b with feature_history := [], baseline := none, calibration_start := some t,
           samples_observed := 0, forced_timeout := false }

/-- `BaselineBuilder._has_typing_data` (lines 90–98): some stored vector
has `avg_typing_speed > 5.0` or `key_press_count > 2` (both attributes
always exist on `FeatureVector`). -/
def hasTypingData (hist : List FeatureVector) : Bool :=
  hist.any fun fv => decide (5 < fv.avg_typing_speed) || decide (2 < fv.key_press_count)

/-- The aggregation part of `BaselineBuilder._build_baseline`
(lines 139–180): averages over the chosen vector list `vs`, focus rate
normalized per minute using the first vector's window length (fallback
30 s when that length is nonpositive), then freezes the baseline and
clears the history. -/
def buildFrom (b : BaselineBuilder) (forced : Bool) (vs : List FeatureVector) :
    BaselineBuilder :=
  let n := vs.length
  let ats := if 0 < n then (vs.map fun v => v.avg_typing_speed).sum / (n : ℚ) else 150
  let aid := if 0 < n then (vs.map fun v => v.avg_idle_duration).sum / (n : ℚ) else 2
  let afr :=
    if 0 < n then
      let apw := (vs.map fun v => (v.focus_loss_count : ℚ)).sum / (n : ℚ)
      let wd0 := match vs with
        | [] => 30
        | v :: _ => v.window_end - v.window_start
      let wd := if wd0 ≤ 0 then 30 else wd0
      apw * (60 / wd)
    else 0.5
  { b with baseline := some ⟨ats, aid, afr⟩, feature_history := [],
           forced_timeout := forced }

/-- `BaselineBuilder._build_baseline` (lines 100–180): empty history
falls back to the fixed default profile; otherwise vectors with a
nonzero typing signal are kept, with the no-typing fallback (all samples
when at least 10 exist) and the defer branch (fewer than 10 samples, no
typing: stay calibrating).  The `forced` flag records which `update`
branch requested the build. -/
def buildBaseline (b : BaselineBuilder) (forced : Bool) : BaselineBuilder :=
  if b.feature_history = [] then
    { b with baseline := some ⟨150, 2, 0.5⟩, forced_timeout := forced }
  else
    let valid := b.feature_history.filter fun v =>
      decide (0 < v.avg_typing_speed) || decide (0 < v.key_press_count)
    if valid = [] then
      if 10 ≤ b.feature_history.length then buildFrom b forced b.feature_history
      else b
    else buildFrom b forced valid

/-- `BaselineBuilder.update` (lines 56–88): no-op once calibrated;
implicit calibration start (discarding the vector) when uninitialized;
append within the calibration window with the early-convergence check;
forced build once the window has elapsed. -/
def update (b : BaselineBuilder) (f : FeatureVector) (t : ℚ) : BaselineBuilder :=
  match b.baseline with
  | some _ => b
  | none =>
    match b.calibration_start with
    | none => startCalibration b t
    | some t0 =>
      let tic := t - t0
      if tic ≤ b.calibration_duration then
        let b' := { b with feature_history := b.feature_history ++ [f],
                           samples_observed := b.samples_observed + 1 }
        if min_samples_required ≤ b'.feature_history.length ∧
            b.calibration_duration * 0.5 ≤ tic then
          if hasTypingData b'.feature_history then buildBaseline b' false else b'
        else b'
      else buildBaseline b true

/-- `BaselineBuilder.is_calibrated` property (lines 187–190). -/
def isCalibrated (b : BaselineBuilder) : Bool := b.baseline.isSome

/-- `BaselineBuilder.reset` (lines 202–207). -/
def resetBuilder (b : BaselineBuilder) : BaselineBuilder :=
  { b with feature_history := [], baseline := none, calibration_start := none,
           samples_observed := 0, forced_timeout := false }

/-- The builder states reachable from construction through its public
operations (`start_calibration`, `update`, `reset`). -/
inductive ReachB : BaselineBuilder → Prop
  | init (d : ℚ) : ReachB (mkBuilder d)
  | start (b : BaselineBuilder) (t : ℚ) : ReachB b → ReachB (startCalibration b t)
  | upd (b : BaselineBuilder) (f : FeatureVector) (t : ℚ) :
      ReachB b → ReachB (update b f t)
  | reset (b : BaselineBuilder) : ReachB b → ReachB (resetBuilder b)

/-- `shared/models.py`, `EventType`. -/
inductive EventType
  | key_press
  | key_release
  | mouse_move
  | focus_lost
  | focus_gained
  | idle_period
deriving DecidableEq

/-- `shared/models.py` event hierarchy, flattened: every event carries a
timestamp and a type; `duration` is meaningful for `idle_period` events
(`IdleEvent.duration`) and ignored otherwise.  The mouse-coordinate
payload is not carried because the only computation reading it —
`avg_mouse_speed`, a floating-point Euclidean-distance sum — is outside
every claim and is not modelled (see `computeFeatures`). -/
structure Event where
  timestamp : ℚ
  type : EventType
  duration : ℚ
deriving DecidableEq

/-- `client/feature_extractor.py`, `FeatureExtractor` state.  The ghost
field `last_query` records the `current_time` of the most recent
`compute_features` call (the claim's "most recent reference time"); it
is never read by the embedded operations. -/
structure FeatureExtractor where
  window_duration : ℚ
  event_buffer : List Event
  last_query : Option ℚ
deriving DecidableEq

/-- `FeatureExtractor.__init__(window_duration)`. -/
def mkExtractor (wd : ℚ) : FeatureExtractor := ⟨wd, [], none⟩

/-- The `for`/`insert` loop of `add_event` (lines 68–72): insert `e`
before the first buffered event whose timestamp exceeds it; if the scan
falls off the end, nothing is inserted (unreachable under the caller's
guard). -/
def insertBefore (e : Event) : List Event → List Event
  | [] => []
  | x :: xs =>
    if e.timestamp < x.timestamp then e :: x :: xs else x :: insertBefore e xs

/-- `FeatureExtractor.add_event` (lines 61–72): append when in order,
sorted insert otherwise. -/
def addEvent (fx : FeatureExtractor) (e : Event) : FeatureExtractor :=
  { fx with event_buffer :=
      match fx.event_buffer.getLast? with
      | none => [e]
      | some l =>
        if l.timestamp ≤ e.timestamp then fx.event_buffer ++ [e]
        else insertBefore e fx.event_buffer }

/-- The `while`/`popleft` loop of `_prune_buffer` (lines 74–80): drop
events from the front while their timestamp is below the cutoff. -/
def pruneLoop (cutoff : ℚ) : List Event → List Event
  | [] => []
  | x :: xs => if x.timestamp < cutoff then pruneLoop cutoff xs else x :: xs

/-- `FeatureExtractor._prune_buffer(current_time)`. -/
def pruneBuffer (fx : FeatureExtractor) (t : ℚ) : FeatureExtractor :=
  { fx with event_buffer := pruneLoop (t - fx.window_duration) fx.event_buffer }

/-- `FeatureExtractor.compute_features(current_time)` (lines 82–167):
prune, then aggregate the window.  `avg_mouse_speed` (lines 145–165)
sums floating-point square roots and is referenced by no claim; it is
left at the dataclass default `0.0`.  Returns the feature vector and the
extractor state after the destructive prune. -/
def computeFeatures (fx : FeatureExtractor) (now : ℚ) : FeatureVector × FeatureExtractor :=
  let buf := pruneLoop (now - fx.window_duration) fx.event_buffer
  let fx' : FeatureExtractor := ⟨fx.window_duration, buf, some now⟩
  let window_start := now - fx.window_duration
  let press := (buf.filter fun e => decide (e.type = EventType.key_press)).map
    fun e => e.timestamp
  let kpc := press.length
  let inter :=
    if 2 ≤ kpc then
      (List.zipWith (fun a b => b - a) press press.tail).sum / ((kpc : ℚ) - 1)
    else 0
  let window_len := now - window_start
  let speed :=
    if 2 ≤ kpc then
      if 0 < window_len then ((kpc : ℚ) / window_len) * 60 else 0
    else 0
  let idle_durs := (buf.filter fun e => decide (e.type = EventType.idle_period)).map
    fun e => e.duration
  let aid := if idle_durs = [] then 0 else idle_durs.sum / (idle_durs.length : ℚ)
  let flc := (buf.filter fun e => decide (e.type = EventType.focus_lost)).length
  (⟨speed, aid, flc, 0, inter, window_start, now, kpc⟩, fx')

/-- `FeatureExtractor.clear` (lines 169–172). -/
def clearExtractor (fx : FeatureExtractor) : FeatureExtractor :=
  { fx with event_buffer := [] }

/-- The extractor states reachable from construction through
`add_event`, `compute_features` and `clear`. -/
inductive ReachFx : FeatureExtractor → Prop
  | init (wd : ℚ) : ReachFx (mkExtractor wd)
  | add (fx : FeatureExtractor) (e : Event) : ReachFx fx → ReachFx (addEvent fx e)
  | query (fx : FeatureExtractor) (now : ℚ) :
      ReachFx fx → ReachFx (computeFeatures fx now).2
  | clear (fx : FeatureExtractor) : ReachFx fx → ReachFx (clearExtractor fx)

/-- Buffer timestamps are in nondecreasing order. -/
def BufSorted (l : List Event) : Prop :=
  List.Pairwise (fun a b => a.timestamp ≤ b.timestamp) l

/-- `shared/models.py`, `RiskData` (the `source` metadata field plays no
part in validation and is omitted). -/
structure RiskData where
  timestamp : ℚ
  risk_score : ℚ
  anomaly_scores : AnomalyScores
  session_id : String
deriving DecidableEq

/-- The whitespace class of Python's `str.strip()` / `str.isspace()`
(CPython's Unicode whitespace set): `\t`–`\r` (0x09–0x0d), the ASCII
separators 0x1c–0x1f, space, NEL (0x85), NBSP (0xa0), the Ogham space
mark (0x1680), the typographic spaces 0x2000–0x200a, the line and
paragraph separators (0x2028, 0x2029), the narrow no-break space
(0x202f), the medium mathematical space (0x205f) and the ideographic
space (0x3000). -/
def pyIsSpace (c : Char) : Bool :=
  decide (9 ≤ c.toNat ∧ c.toNat ≤ 13) || decide (28 ≤ c.toNat ∧ c.toNat ≤ 31) ||
  decide (c.toNat = 32) || decide (c.toNat = 133) || decide (c.toNat = 160) ||
  decide (c.toNat = 5760) || decide (8192 ≤ c.toNat ∧ c.toNat ≤ 8202) ||
  decide (c.toNat = 8232) || decide (c.toNat = 8233) || decide (c.toNat = 8239) ||
  decide (c.toNat = 8287) || decide (c.toNat = 12288)

/-- `server/anomaly_validator.py`, `AnomalyValidator.validate`
(lines 31–73), with the validator's `__init__` bounds inlined
(`risk_score` and anomaly-score ranges are both `[0, 100]`).  Python's
`not payload.session_id.strip()` — emptiness after stripping whitespace
— is modelled as "every character is in Python's whitespace class"
(`pyIsSpace`); the `isinstance(timestamp, (int, float))` test always
holds in the typed model.  Returns the accept flag and the reason. -/
def validate (p : RiskData) : Bool × String :=
  if ¬ (0 ≤ p.risk_score ∧ p.risk_score ≤ 100) then
    (false, "risk score out of range")
  else if ¬ (0 ≤ p.anomaly_scores.idle_burst ∧ p.anomaly_scores.idle_burst ≤ 100) then
    (false, "anomaly score idle_burst out of range")
  else if ¬ (0 ≤ p.anomaly_scores.focus_instability ∧
      p.anomaly_scores.focus_instability ≤ 100) then
    (false, "anomaly score focus_instability out of range")
  else if ¬ (0 ≤ p.anomaly_scores.behavioral_drift ∧
      p.anomaly_scores.behavioral_drift ≤ 100) then
    (false, "anomaly score behavioral_drift out of range")
  else if p.risk_score = 0 ∧ (p.anomaly_scores.idle_burst ≠ 0 ∨
      p.anomaly_scores.focus_instability ≠ 0 ∨ p.anomaly_scores.behavioral_drift ≠ 0) then
    (false, "risk score is zero but anomaly scores are non-zero")
  else if p.session_id = "" ∨ p.session_id.data.all pyIsSpace = true then
    (false, "session id is empty or missing")
  else if p.timestamp ≤ 0 then
    (false, "invalid timestamp")
  else
    (true, "")

/-- A concrete window with one key press and no measurable typing speed
(the extractor reports `avg_typing_speed = 0` below two presses). -/
def fvOneKey : FeatureVector := ⟨0, 0, 0, 0, 0, 0, 30, 1⟩

/-- A concrete window with clear typing activity. -/
def fvTyping : FeatureVector := ⟨120, 0, 0, 0, 0, 0, 30, 10⟩

/-- The spec's reading of "the KeyPress events in the window": the
timestamps, in buffer order, of buffered KeyPress events no older than
`now - window_duration`.  Stated declaratively for comparison with the
imperative prune-then-scan inside `computeFeatures`. -/
def windowKeyPressTimes (fx : FeatureExtractor) (now : ℚ) : List ℚ :=
  ((fx.event_buffer.filter fun e => decide (now - fx.window_duration ≤ e.timestamp)).filter
    fun e => decide (e.type = EventType.key_press)).map fun e => e.timestamp

theorem clamp70_bounds (x : ℚ) : 0 ≤ min 70 (max 0 x) ∧ min 70 (max 0 x) ≤ 70 :=
  ⟨le_min (by norm_num) (le_max_left _ _), min_le_left _ _⟩

theorem detectIdleBurst_bounds {b : BaselineProfile} {f : FeatureVector} {v : ℚ}
    (h : detectIdleBurst b f = some v) : 0 ≤ v ∧ v ≤ 70 := by
  unfold detectIdleBurst at h
  rw [show idle_burst_scale = 70 from rfl] at h
  dsimp only at h
  split_ifs at h
  all_goals
    obtain rfl := Option.some.inj h
  all_goals
    first
      | exact clamp70_bounds _
      | exact ⟨le_refl 0, by norm_num⟩

theorem detectFocusInstability_bounds (b : BaselineProfile) (f : FeatureVector) :
    0 ≤ detectFocusInstability b f ∧ detectFocusInstability b f ≤ 70 := by
  unfold detectFocusInstability
  rw [show focus_scale = 70 from rfl]
  dsimp only
  split_ifs
  all_goals
    first
      | exact clamp70_bounds _
      | exact ⟨le_refl 0, by norm_num⟩

theorem detectBehavioralDrift_bounds (b : BaselineProfile) (f : FeatureVector) :
    0 ≤ detectBehavioralDrift b f ∧ detectBehavioralDrift b f ≤ 70 := by
  unfold detectBehavioralDrift
  rw [show drift_scale = 70 from rfl]
  dsimp only
  split_ifs
  all_goals
    first
      | exact clamp70_bounds _
      | exact ⟨le_refl 0, by norm_num⟩

/-- Claim C1: for every detector (with or without a baseline) and every
feature vector, whenever `computeScores` returns a value, each of the
three rule scores lies in `[0, 70]`, and `overall` is their maximum
(hence `overall` also lies in `[0, 70]`). -/
theorem c1_compute_scores_bounded_overall_max
    (d : ActivityShiftDetector) (f : FeatureVector) (s : AnomalyScores)
    (h : computeScores d f = some s) :
    (0 ≤ s.idle_burst ∧ s.idle_burst ≤ 70) ∧
    (0 ≤ s.focus_instability ∧ s.focus_instability ≤ 70) ∧
    (0 ≤ s.behavioral_drift ∧ s.behavioral_drift ≤ 70) ∧
    s.overall = max s.idle_burst (max s.focus_instability s.behavioral_drift) ∧
    0 ≤ s.overall ∧ s.overall ≤ 70 := by
  unfold computeScores at h
  cases hd : d.baseline with
  | none =>
    rw [hd] at h
    dsimp only at h
    obtain rfl := Option.some.inj h
    norm_num
  | some b =>
    rw [hd] at h
    dsimp only at h
    cases hib : detectIdleBurst b f with
    | none =>
      rw [hib] at h
      exact Option.noConfusion h
    | some ib =>
      rw [hib] at h
      dsimp only at h
      obtain rfl := Option.some.inj h
      obtain ⟨hib0, hib70⟩ := detectIdleBurst_bounds hib
      obtain ⟨hfi0, hfi70⟩ := detectFocusInstability_bounds b f
      obtain ⟨hbd0, hbd70⟩ := detectBehavioralDrift_bounds b f
      refine ⟨⟨hib0, hib70⟩, ⟨hfi0, hfi70⟩, ⟨hbd0, hbd70⟩, rfl, ?_, ?_⟩
      · exact le_trans hib0 (le_max_left _ _)
      · exact max_le hib70 (max_le hfi70 hbd70)

theorem c1_compute_scores_bounded_overall_max_witness :
    ∃ s, computeScores ⟨some ⟨200, 2, 0.5⟩⟩ ⟨400, 5, 0, 0, 0, 0, 30, 0⟩ = some s ∧
    ((0 ≤ s.idle_burst ∧ s.idle_burst ≤ 70) ∧
     (0 ≤ s.focus_instability ∧ s.focus_instability ≤ 70) ∧
     (0 ≤ s.behavioral_drift ∧ s.behavioral_drift ≤ 70) ∧
     s.overall = max s.idle_burst (max s.focus_instability s.behavioral_drift) ∧
     0 ≤ s.overall ∧ s.overall ≤ 70) := by
  refine ⟨⟨70, 0, 70, 70⟩, ?_, ?_⟩
  · norm_num [computeScores, detectIdleBurst, detectFocusInstability, detectBehavioralDrift,
      idle_multiplier, typing_speed_multiplier, focus_rate_multiplier, drift_threshold,
      idle_burst_scale, focus_scale, drift_scale]
  · exact c1_compute_scores_bounded_overall_max ⟨some ⟨200, 2, 0.5⟩⟩
      ⟨400, 5, 0, 0, 0, 0, 30, 0⟩ ⟨70, 0, 70, 70⟩
      (by norm_num [computeScores, detectIdleBurst, detectFocusInstability,
        detectBehavioralDrift, idle_multiplier, typing_speed_multiplier,
        focus_rate_multiplier, drift_threshold, idle_burst_scale, focus_scale, drift_scale])

/-- Claim C2: with the baseline typing speed `0` (and idle baseline `0`),
a feature vector with positive idle duration and positive typing speed
drives `_detect_idle_burst` into the unguarded division
`features.avg_typing_speed / baseline.avg_typing_speed`: Python raises
`ZeroDivisionError`, modelled here as `none`.  This contradicts the
spec's totality requirement for `compute_scores`. -/
theorem c2_zero_baseline_division_raises :
    computeScores ⟨some ⟨0, 0, 0⟩⟩ ⟨100, 1, 0, 0, 0, 0, 30, 0⟩ = none := by
  norm_num [computeScores, detectIdleBurst, idle_multiplier, typing_speed_multiplier]

/-- Claim C3: `compute_risk` stores, and the `raw_risk` property then
returns, exactly the clamp to `[0, 100]` of
`0.4*idle_burst + 0.35*focus_instability + 0.25*behavioral_drift`. -/
theorem c3_raw_risk_weighted_clamped (e : RiskEngine) (s : AnomalyScores) :
    rawRisk (computeRisk e s).2 =
      max 0 (min 100
        (0.4 * s.idle_burst + 0.35 * s.focus_instability + 0.25 * s.behavioral_drift)) ∧
    0 ≤ rawRisk (computeRisk e s).2 ∧ rawRisk (computeRisk e s).2 ≤ 100 := by
  refine ⟨rfl, le_max_left _ _, ?_⟩
  exact max_le (by norm_num) (min_le_left _ _)

theorem pushBounded_length_pos (m : ℕ) (h : List ℚ) (x : ℚ) (hm : 0 < m) :
    0 < (pushBounded m h x).length := by
  simp only [pushBounded, List.length_drop, List.length_append, List.length_cons,
    List.length_nil]
  omega

/-- Claim C4: after the raw score is appended to the bounded history, the
returned smoothed value is the raw score when the history has exactly one
entry, and `0.6*raw + 0.4*mean(history excluding the just-appended raw)`
otherwise; consequently (capacity 3, history within capacity) feeding the
same anomaly scores three consecutive times returns exactly the raw
score. -/
theorem c4_smoothing_step_and_convergence :
    (∀ (e : RiskEngine) (s : AnomalyScores), 0 < e.smoothing_window →
      ((pushBounded e.smoothing_window e.risk_history (rawRiskOf s)).length = 1 →
        (computeRisk e s).1 = rawRiskOf s) ∧
      ((pushBounded e.smoothing_window e.risk_history (rawRiskOf s)).length ≠ 1 →
        (computeRisk e s).1 = 0.6 * rawRiskOf s + 0.4 *
          ((pushBounded e.smoothing_window e.risk_history (rawRiskOf s)).dropLast.sum /
            (((pushBounded e.smoothing_window e.risk_history (rawRiskOf s)).length : ℚ) - 1)))) ∧
    (∀ (e : RiskEngine) (s : AnomalyScores),
      e.smoothing_window = 3 → e.risk_history.length ≤ 3 →
      (computeRisk ((computeRisk ((computeRisk e s).2) s).2) s).1 = rawRiskOf s) := by
  constructor
  · intro e s hw
    have h0 : 0 < (pushBounded e.smoothing_window e.risk_history (rawRiskOf s)).length :=
      pushBounded_length_pos _ _ _ hw
    constructor
    · intro h1
      simp only [computeRisk, rawRiskOf] at h1 ⊢
      simp [h1]
    · intro h1
      simp only [computeRisk, rawRiskOf] at h0 h1 ⊢
      rw [if_pos h0, if_neg h1]
  · intro e s h3 hlen
    obtain ⟨w, hist, lr, ls⟩ := e
    dsimp only at h3 hlen
    subst h3
    rcases hist with _ | ⟨a, _ | ⟨b, _ | ⟨c, _ | ⟨d, t⟩⟩⟩⟩
    · simp [computeRisk, rawRiskOf, pushBounded]
      ring
    · simp [computeRisk, rawRiskOf, pushBounded]
      ring
    · simp [computeRisk, rawRiskOf, pushBounded]
      ring
    · simp [computeRisk, rawRiskOf, pushBounded]
      ring
    · simp only [List.length_cons] at hlen
      omega

theorem c4_smoothing_step_and_convergence_witness :
    (((pushBounded (mkRiskEngine 3).smoothing_window (mkRiskEngine 3).risk_history
          (rawRiskOf ⟨70, 0, 0, 70⟩)).length = 1 →
        (computeRisk (mkRiskEngine 3) ⟨70, 0, 0, 70⟩).1 = rawRiskOf ⟨70, 0, 0, 70⟩) ∧
      ((pushBounded (mkRiskEngine 3).smoothing_window (mkRiskEngine 3).risk_history
          (rawRiskOf ⟨70, 0, 0, 70⟩)).length ≠ 1 →
        (computeRisk (mkRiskEngine 3) ⟨70, 0, 0, 70⟩).1 = 0.6 * rawRiskOf ⟨70, 0, 0, 70⟩ +
          0.4 * ((pushBounded (mkRiskEngine 3).smoothing_window
              (mkRiskEngine 3).risk_history (rawRiskOf ⟨70, 0, 0, 70⟩)).dropLast.sum /
            (((pushBounded (mkRiskEngine 3).smoothing_window (mkRiskEngine 3).risk_history
                (rawRiskOf ⟨70, 0, 0, 70⟩)).length : ℚ) - 1)))) ∧
    (computeRisk ((computeRisk ((computeRisk (mkRiskEngine 3) ⟨70, 0, 0, 70⟩).2)
        ⟨70, 0, 0, 70⟩).2) ⟨70, 0, 0, 70⟩).1 = rawRiskOf ⟨70, 0, 0, 70⟩ :=
  ⟨c4_smoothing_step_and_convergence.1 (mkRiskEngine 3) ⟨70, 0, 0, 70⟩ (by norm_num [mkRiskEngine]),
   c4_smoothing_step_and_convergence.2 (mkRiskEngine 3) ⟨70, 0, 0, 70⟩ rfl
     (by norm_num [mkRiskEngine])⟩

theorem buildFrom_fields (b : BaselineBuilder) (forced : Bool) (vs : List FeatureVector) :
    (buildFrom b forced vs).feature_history = [] ∧
    (buildFrom b forced vs).samples_observed = b.samples_observed ∧
    (buildFrom b forced vs).forced_timeout = forced ∧
    (buildFrom b forced vs).baseline.isSome = true := by
  unfold buildFrom
  exact ⟨rfl, rfl, rfl, rfl⟩

theorem buildBaseline_cases (b : BaselineBuilder) (forced : Bool) :
    buildBaseline b forced = b ∨
    ((buildBaseline b forced).feature_history = [] ∧
     (buildBaseline b forced).samples_observed = b.samples_observed ∧
     (buildBaseline b forced).forced_timeout = forced) := by
  unfold buildBaseline
  dsimp only
  split_ifs with h1 h2 h3
  · exact Or.inr ⟨h1, rfl, rfl⟩
  · exact Or.inr ⟨(buildFrom_fields b forced b.feature_history).1,
      (buildFrom_fields b forced b.feature_history).2.1,
      (buildFrom_fields b forced b.feature_history).2.2.1⟩
  · exact Or.inl rfl
  · exact Or.inr ⟨(buildFrom_fields b forced _).1, (buildFrom_fields b forced _).2.1,
      (buildFrom_fields b forced _).2.2.1⟩

theorem reachB_invariant (b : BaselineBuilder) (h : ReachB b) :
    b.feature_history.length ≤ b.samples_observed ∧
    (b.baseline.isSome = true →
      min_samples_required ≤ b.samples_observed ∨ b.forced_timeout = true) := by
  induction h with
  | init d => simp [mkBuilder]
  | start b t _ ih => simp [startCalibration]
  | reset b _ ih => simp [resetBuilder]
  | upd b f t hr ih =>
    obtain ⟨dur, hist, bl, cs, obs, ft⟩ := b
    cases bl with
    | some p => exact ih
    | none =>
      cases cs with
      | none => simp [update, startCalibration]
      | some t0 =>
        simp only [update]
        dsimp only at ih ⊢
        split_ifs with h1 h2 h3
        · rcases buildBaseline_cases ⟨dur, hist ++ [f], none, some t0, obs + 1, ft⟩ false
            with heq | ⟨hh, ho, hf⟩
          · rw [heq]
            refine ⟨?_, ?_⟩
            · simp only [List.length_append, List.length_cons, List.length_nil]
              omega
            · intro hsome
              simp at hsome
          · refine ⟨?_, ?_⟩
            · rw [hh, ho]
              simp
            · intro _
              left
              rw [ho]
              have hlen : min_samples_required ≤ (hist ++ [f]).length := h2.1
              simp only [List.length_append, List.length_cons, List.length_nil] at hlen
              dsimp only at hlen ⊢
              omega
        · refine ⟨?_, ?_⟩
          · simp only [List.length_append, List.length_cons, List.length_nil]
            omega
          · intro hsome
            simp at hsome
        · refine ⟨?_, ?_⟩
          · simp only [List.length_append, List.length_cons, List.length_nil]
            omega
          · intro hsome
            simp at hsome
        · rcases buildBaseline_cases ⟨dur, hist, none, some t0, obs, ft⟩ true
            with heq | ⟨hh, ho, hf⟩
          · rw [heq]
            exact ih
          · refine ⟨?_, ?_⟩
            · rw [hh, ho]
              simp
            · intro _
              right
              exact hf

/-- Claim C5: in every reachable builder state, `is_calibrated = true`
implies at least `min_samples_required = 5` vectors were observed during
the current calibration, unless the baseline was built by the
calibration-duration timeout branch (which may use the documented
fallback with fewer samples). -/
theorem c5_calibrated_implies_five_samples_or_timeout (b : BaselineBuilder)
    (hr : ReachB b) (hc : isCalibrated b = true) :
    min_samples_required ≤ b.samples_observed ∨ b.forced_timeout = true :=
  (reachB_invariant b hr).2 (by simpa [isCalibrated] using hc)

theorem c5_calibrated_implies_five_samples_or_timeout_witness :
    ReachB (update (update (mkBuilder 180) fvOneKey 0) fvOneKey 200) ∧
    isCalibrated (update (update (mkBuilder 180) fvOneKey 0) fvOneKey 200) = true ∧
    (min_samples_required ≤
        (update (update (mkBuilder 180) fvOneKey 0) fvOneKey 200).samples_observed ∨
      (update (update (mkBuilder 180) fvOneKey 0) fvOneKey 200).forced_timeout = true) := by
  have hr : ReachB (update (update (mkBuilder 180) fvOneKey 0) fvOneKey 200) :=
    ReachB.upd _ _ _ (ReachB.upd _ _ _ (ReachB.init 180))
  have hc : isCalibrated (update (update (mkBuilder 180) fvOneKey 0) fvOneKey 200) = true := by
    norm_num [update, mkBuilder, startCalibration, buildBaseline, isCalibrated]
  exact ⟨hr, hc, c5_calibrated_implies_five_samples_or_timeout _ hr hc⟩

theorem buildBaseline_isSome_of_typing (b : BaselineBuilder) (forced : Bool)
    (h : hasTypingData b.feature_history = true) :
    (buildBaseline b forced).baseline.isSome = true := by
  rw [hasTypingData, List.any_eq_true] at h
  obtain ⟨fv, hmem, hp⟩ := h
  have hne : b.feature_history ≠ [] := by
    intro he
    rw [he] at hmem
    exact absurd hmem (List.not_mem_nil _)
  have hvalid : b.feature_history.filter (fun v =>
      decide (0 < v.avg_typing_speed) || decide (0 < v.key_press_count)) ≠ [] := by
    intro he
    rw [List.filter_eq_nil_iff] at he
    have hno := he fv hmem
    simp only [Bool.or_eq_true, decide_eq_true_eq, not_or, not_lt] at hno hp
    rcases hp with h5 | h2
    · linarith [hno.1]
    · omega
  unfold buildBaseline
  rw [if_neg hne]
  dsimp only
  rw [if_neg hvalid]
  exact (buildFrom_fields b forced _).2.2.2

/-- Claim C6 (amended): for a Calibrating builder, an update within the
calibration window freezes a baseline whenever, after appending the new
vector, (a) the history holds at least 5 samples, (b) at least half the
calibration duration has elapsed, and (c) some stored sample has typing
speed above 5 keys/min or a key-press count greater than 2 (the source's
`_has_typing_data` test; a merely nonzero key-press count is not
enough). -/
theorem c6_early_trigger_conditions (b : BaselineBuilder) (f : FeatureVector) (t t0 : ℚ)
    (hb : b.baseline = none) (hs : b.calibration_start = some t0)
    (hwin : t - t0 ≤ b.calibration_duration)
    (hhalf : b.calibration_duration * 0.5 ≤ t - t0)
    (hcount : min_samples_required ≤ b.feature_history.length + 1)
    (htyp : ∃ fv ∈ b.feature_history ++ [f],
      5 < fv.avg_typing_speed ∨ 2 < fv.key_press_count) :
    (update b f t).baseline.isSome = true := by
  obtain ⟨dur, hist, bl, cs, obs, ft⟩ := b
  subst hb
  subst hs
  have hht : hasTypingData (hist ++ [f]) = true := by
    rw [hasTypingData, List.any_eq_true]
    obtain ⟨fv, hm, hp⟩ := htyp
    refine ⟨fv, hm, ?_⟩
    rcases hp with h | h <;> simp [h]
  simp only [update]
  split_ifs with h1 h2 h3
  · exact buildBaseline_isSome_of_typing _ false hht
  · refine absurd ⟨?_, hhalf⟩ h2
    simpa [List.length_append] using hcount
  · exact absurd hwin h1
  · exact absurd hwin h1

theorem c6_early_trigger_conditions_witness :
    ((⟨180, [fvTyping, fvTyping, fvTyping, fvTyping], none, some 0, 4, false⟩ :
        BaselineBuilder).baseline = none) ∧
    (update (⟨180, [fvTyping, fvTyping, fvTyping, fvTyping], none, some 0, 4, false⟩ :
        BaselineBuilder) fvTyping 90).baseline.isSome = true := by
  refine ⟨rfl, ?_⟩
  exact c6_early_trigger_conditions _ fvTyping 90 0 rfl rfl (by norm_num) (by norm_num)
    (by norm_num [min_samples_required]) ⟨fvTyping, by simp, Or.inl (by norm_num [fvTyping])⟩

/-- Claim C6, counterexample to the claim as stated: five samples whose
only typing signal is a key-press count of 1 (nonzero, hence satisfying
the claim's condition (c)) arrive with all other early-trigger
conditions met — 5 samples after append, 90 of 180 s elapsed — yet
`update` builds no baseline, because `_has_typing_data` demands a
key-press count strictly above 2 (or typing speed above 5). -/
theorem c6_nonzero_keypress_insufficient :
    ReachB (update (update (update (update (update (mkBuilder 180) fvOneKey 0)
      fvOneKey 10) fvOneKey 20) fvOneKey 30) fvOneKey 40) ∧
    (update (update (update (update (update (mkBuilder 180) fvOneKey 0)
      fvOneKey 10) fvOneKey 20) fvOneKey 30) fvOneKey 40) =
      ⟨180, [fvOneKey, fvOneKey, fvOneKey, fvOneKey], none, some 0, 4, false⟩ ∧
    fvOneKey.key_press_count = 1 ∧
    (update (⟨180, [fvOneKey, fvOneKey, fvOneKey, fvOneKey], none, some 0, 4, false⟩ :
        BaselineBuilder) fvOneKey 90).baseline = none := by
  refine ⟨ReachB.upd _ _ _ (ReachB.upd _ _ _ (ReachB.upd _ _ _ (ReachB.upd _ _ _
    (ReachB.upd _ _ _ (ReachB.init 180))))), ?_, rfl, ?_⟩
  · norm_num [update, mkBuilder, startCalibration, min_samples_required, hasTypingData,
      buildBaseline, fvOneKey]
  · norm_num [update, min_samples_required, hasTypingData, buildBaseline, fvOneKey]

/-- Claim C10: an `update` on an Uninitialized builder (no baseline, no
calibration start) anchors calibration at the call's time but discards
the vector: the history is empty afterwards. -/
theorem c10_first_update_starts_and_discards (b : BaselineBuilder) (f : FeatureVector)
    (t : ℚ) (hb : b.baseline = none) (hs : b.calibration_start = none) :
    (update b f t).calibration_start = some t ∧
    (update b f t).feature_history = [] ∧
    (update b f t).baseline = none := by
  obtain ⟨dur, hist, bl, cs, obs, ft⟩ := b
  dsimp only at hb hs
  subst hb
  subst hs
  simp [update, startCalibration]

theorem c10_first_update_starts_and_discards_witness :
    (mkBuilder 180).baseline = none ∧ (mkBuilder 180).calibration_start = none ∧
    ((update (mkBuilder 180) fvTyping 7).calibration_start = some 7 ∧
     (update (mkBuilder 180) fvTyping 7).feature_history = [] ∧
     (update (mkBuilder 180) fvTyping 7).baseline = none) :=
  ⟨rfl, rfl, c10_first_update_starts_and_discards (mkBuilder 180) fvTyping 7 rfl rfl⟩

theorem mem_insertBefore {y e : Event} {l : List Event} (h : y ∈ insertBefore e l) :
    y = e ∨ y ∈ l := by
  induction l with
  | nil => exact absurd h (List.not_mem_nil y)
  | cons x xs ih =>
    unfold insertBefore at h
    split_ifs at h with hc
    · rcases List.mem_cons.mp h with h1 | h1
      · exact Or.inl h1
      · exact Or.inr h1
    · rcases List.mem_cons.mp h with h1 | h1
      · exact Or.inr (h1 ▸ List.mem_cons_self x xs)
      · rcases ih h1 with h2 | h2
        · exact Or.inl h2
        · exact Or.inr (List.mem_cons_of_mem x h2)

theorem insertBefore_sorted {e : Event} {l : List Event} (hs : BufSorted l) :
    BufSorted (insertBefore e l) := by
  induction l with
  | nil => exact List.Pairwise.nil
  | cons x xs ih =>
    rw [BufSorted, List.pairwise_cons] at hs
    unfold insertBefore
    split_ifs with hc
    · refine List.Pairwise.cons ?_ (List.Pairwise.cons hs.1 hs.2)
      intro y hy
      rcases List.mem_cons.mp hy with h1 | h1
      · exact le_of_lt (h1 ▸ hc)
      · exact le_trans (le_of_lt hc) (hs.1 y h1)
    · refine List.Pairwise.cons ?_ (ih hs.2)
      intro y hy
      rcases mem_insertBefore hy with h1 | h1
      · exact h1 ▸ not_lt.mp hc
      · exact hs.1 y h1

theorem sorted_le_getLast {l : List Event} {x last : Event}
    (hs : BufSorted l) (hx : x ∈ l) (hl : l.getLast? = some last) :
    x.timestamp ≤ last.timestamp := by
  induction l with
  | nil => exact absurd hx (List.not_mem_nil x)
  | cons a t ih =>
    rw [BufSorted, List.pairwise_cons] at hs
    cases t with
    | nil =>
      simp only [List.getLast?_singleton, Option.some.injEq] at hl
      rcases List.mem_cons.mp hx with h1 | h1
      · rw [h1, hl]
      · exact absurd h1 (List.not_mem_nil x)
    | cons b t2 =>
      rw [List.getLast?_cons_cons] at hl
      rcases List.mem_cons.mp hx with h1 | h1
      · have hlast : last ∈ b :: t2 := by
          obtain ⟨hne, heq⟩ :=
            List.mem_getLast?_eq_getLast (show last ∈ (b :: t2).getLast? from hl)
          exact heq ▸ List.getLast_mem hne
        exact h1 ▸ hs.1 last hlast
      · exact ih hs.2 h1 hl

theorem addEvent_sorted (fx : FeatureExtractor) (e : Event)
    (hs : BufSorted fx.event_buffer) : BufSorted (addEvent fx e).event_buffer := by
  unfold addEvent
  cases hl : fx.event_buffer.getLast? with
  | none => exact List.pairwise_singleton _ e
  | some last =>
    dsimp only
    split_ifs with hc
    · rw [BufSorted, List.pairwise_append]
      refine ⟨hs, List.pairwise_singleton _ e, ?_⟩
      intro a ha b hb
      rw [List.mem_singleton] at hb
      exact hb ▸ le_trans (sorted_le_getLast hs ha hl) hc
    · exact insertBefore_sorted hs

theorem pruneLoop_sorted {c : ℚ} {l : List Event} (hs : BufSorted l) :
    BufSorted (pruneLoop c l) := by
  induction l with
  | nil => exact List.Pairwise.nil
  | cons x xs ih =>
    rw [BufSorted, List.pairwise_cons] at hs
    unfold pruneLoop
    split_ifs with hc
    · exact ih hs.2
    · exact List.Pairwise.cons hs.1 hs.2

theorem reachFx_sorted (fx : FeatureExtractor) (h : ReachFx fx) :
    BufSorted fx.event_buffer := by
  induction h with
  | init wd => exact List.Pairwise.nil
  | add fx e _ ih => exact addEvent_sorted fx e ih
  | query fx now _ ih => exact pruneLoop_sorted ih
  | clear fx _ ih => exact List.Pairwise.nil

theorem pruneLoop_ge {c : ℚ} {l : List Event} (hs : BufSorted l) :
    ∀ y ∈ pruneLoop c l, c ≤ y.timestamp := by
  induction l with
  | nil => intro y hy; exact absurd hy (List.not_mem_nil y)
  | cons x xs ih =>
    rw [BufSorted, List.pairwise_cons] at hs
    unfold pruneLoop
    split_ifs with hc
    · exact ih hs.2
    · intro y hy
      rcases List.mem_cons.mp hy with h1 | h1
      · exact h1 ▸ not_lt.mp hc
      · exact le_trans (not_lt.mp hc) (hs.1 y h1)

theorem pruneLoop_eq_filter {c : ℚ} {l : List Event} (hs : BufSorted l) :
    pruneLoop c l = l.filter fun e => decide (c ≤ e.timestamp) := by
  induction l with
  | nil => rfl
  | cons x xs ih =>
    rw [BufSorted, List.pairwise_cons] at hs
    unfold pruneLoop
    split_ifs with hc
    · rw [ih hs.2, List.filter_cons_of_neg]
      simp [not_le.mpr hc]
    · rw [List.filter_cons_of_pos, List.filter_eq_self.mpr]
      · intro a ha
        simp only [decide_eq_true_eq]
        exact le_trans (not_lt.mp hc) (hs.1 a ha)
      · simp [not_lt.mp hc]

/-- Claim C7 (amended): in every reachable extractor state, immediately
after `compute_features(now)` no buffered event is older than
`now - window_duration`.  (The unqualified every-reachable-state form is
refuted by `c7_stale_event_after_add_event`: `add_event` itself never
prunes.) -/
theorem c7_buffer_pruned_after_compute (fx : FeatureExtractor) (now : ℚ)
    (hr : ReachFx fx) :
    ∀ e ∈ ((computeFeatures fx now).2).event_buffer,
      now - fx.window_duration ≤ e.timestamp := by
  intro e he
  have hb : ((computeFeatures fx now).2).event_buffer =
      pruneLoop (now - fx.window_duration) fx.event_buffer := rfl
  rw [hb] at he
  exact pruneLoop_ge (reachFx_sorted fx hr) e he

theorem c7_buffer_pruned_after_compute_witness :
    ReachFx (addEvent (mkExtractor 30) ⟨90, EventType.key_press, 0⟩) ∧
    (∀ e ∈ ((computeFeatures (addEvent (mkExtractor 30) ⟨90, EventType.key_press, 0⟩)
        100).2).event_buffer,
      (100 : ℚ) - (addEvent (mkExtractor 30)
        ⟨90, EventType.key_press, 0⟩).window_duration ≤ e.timestamp) := by
  have hr : ReachFx (addEvent (mkExtractor 30) ⟨90, EventType.key_press, 0⟩) :=
    ReachFx.add _ _ (ReachFx.init 30)
  exact ⟨hr, c7_buffer_pruned_after_compute _ 100 hr⟩

/-- Claim C7, counterexample to the claim as stated: after
`compute_features(100)` on a 30-second extractor, `add_event` delivers an
out-of-order event stamped 10; the buffer then holds an event older than
the most recent reference time (100) minus the window duration, because
`add_event` performs no pruning. -/
theorem c7_stale_event_after_add_event :
    ReachFx (addEvent ((computeFeatures (mkExtractor 30) 100).2)
      ⟨10, EventType.key_press, 0⟩) ∧
    (addEvent ((computeFeatures (mkExtractor 30) 100).2)
      ⟨10, EventType.key_press, 0⟩).last_query = some 100 ∧
    (addEvent ((computeFeatures (mkExtractor 30) 100).2)
      ⟨10, EventType.key_press, 0⟩).window_duration = 30 ∧
    (⟨10, EventType.key_press, 0⟩ : Event) ∈ (addEvent ((computeFeatures
      (mkExtractor 30) 100).2) ⟨10, EventType.key_press, 0⟩).event_buffer ∧
    (10 : ℚ) < 100 - 30 := by
  refine ⟨ReachFx.add _ _ (ReachFx.query _ _ (ReachFx.init 30)), rfl, rfl, ?_, by norm_num⟩
  show _ ∈ [(⟨10, EventType.key_press, 0⟩ : Event)]
  exact List.mem_singleton.mpr rfl

/-- Claim C9: on a (reachably) sorted buffer and a positive window
duration, `compute_features(now)` reports `key_press_count` as the
number of KeyPress events surviving the window cutoff; with at least two
presses, `inter_key_interval` is the mean of consecutive press-to-press
deltas and `avg_typing_speed` is `(count / (now - window_start)) * 60`
with `window_start = now - window_duration`; with fewer than two, both
are zero. -/
theorem c9_keystroke_features (fx : FeatureExtractor) (now : ℚ)
    (hs : BufSorted fx.event_buffer) (hw : 0 < fx.window_duration) :
    (computeFeatures fx now).1.key_press_count = (windowKeyPressTimes fx now).length ∧
    (computeFeatures fx now).1.window_start = now - fx.window_duration ∧
    (2 ≤ (windowKeyPressTimes fx now).length →
      (computeFeatures fx now).1.inter_key_interval =
        (List.zipWith (fun a b => b - a) (windowKeyPressTimes fx now)
          (windowKeyPressTimes fx now).tail).sum /
          (((windowKeyPressTimes fx now).length : ℚ) - 1) ∧
      (computeFeatures fx now).1.avg_typing_speed =
        (((windowKeyPressTimes fx now).length : ℚ) /
          (now - (now - fx.window_duration))) * 60) ∧
    ((windowKeyPressTimes fx now).length < 2 →
      (computeFeatures fx now).1.inter_key_interval = 0 ∧
      (computeFeatures fx now).1.avg_typing_speed = 0) := by
  have hwin : (0 : ℚ) < now - (now - fx.window_duration) := by linarith
  unfold computeFeatures windowKeyPressTimes
  rw [pruneLoop_eq_filter hs]
  dsimp only
  refine ⟨rfl, rfl, ?_, ?_⟩
  · intro h2
    constructor
    · rw [if_pos h2]
    · rw [if_pos h2, if_pos hwin]
  · intro h2
    constructor
    · rw [if_neg (not_le.mpr h2)]
    · rw [if_neg (not_le.mpr h2)]

theorem c9_keystroke_features_witness :
    BufSorted (⟨30, [⟨80, EventType.key_press, 0⟩, ⟨90, EventType.key_press, 0⟩], none⟩ :
      FeatureExtractor).event_buffer ∧
    (0 : ℚ) < (⟨30, [⟨80, EventType.key_press, 0⟩, ⟨90, EventType.key_press, 0⟩], none⟩ :
      FeatureExtractor).window_duration ∧
    ((computeFeatures (⟨30, [⟨80, EventType.key_press, 0⟩, ⟨90, EventType.key_press, 0⟩],
        none⟩ : FeatureExtractor) 100).1.key_press_count =
      (windowKeyPressTimes (⟨30, [⟨80, EventType.key_press, 0⟩,
        ⟨90, EventType.key_press, 0⟩], none⟩ : FeatureExtractor) 100).length) := by
  have hs : BufSorted (⟨30, [⟨80, EventType.key_press, 0⟩, ⟨90, EventType.key_press, 0⟩],
      none⟩ : FeatureExtractor).event_buffer := by
    simp only [BufSorted, List.pairwise_cons, List.mem_singleton, List.not_mem_nil,
      IsEmpty.forall_iff, implies_true, and_true, List.Pairwise.nil]
    intro y hy
    rw [hy]
    norm_num
  refine ⟨hs, by norm_num, ?_⟩
  exact (c9_keystroke_features _ 100 hs (by norm_num)).1

/-- Claim C8 (amended): for records whose session id contains at least
one non-whitespace character (Python's `session_id.strip()` is nonempty;
a merely non-empty id such as a single blank is still rejected) and
whose timestamp is positive, the validator accepts iff the risk score
and the three sub-scores lie in `[0, 100]` and a zero risk score forces
all sub-scores to zero. -/
theorem c8_validate_accepts_iff (p : RiskData)
    (hsid : p.session_id.data.all pyIsSpace = false)
    (ht : 0 < p.timestamp) :
    (validate p).1 = true ↔
      ((0 ≤ p.risk_score ∧ p.risk_score ≤ 100) ∧
       (0 ≤ p.anomaly_scores.idle_burst ∧ p.anomaly_scores.idle_burst ≤ 100) ∧
       (0 ≤ p.anomaly_scores.focus_instability ∧ p.anomaly_scores.focus_instability ≤ 100) ∧
       (0 ≤ p.anomaly_scores.behavioral_drift ∧ p.anomaly_scores.behavioral_drift ≤ 100) ∧
       (p.risk_score = 0 → p.anomaly_scores.idle_burst = 0 ∧
         p.anomaly_scores.focus_instability = 0 ∧ p.anomaly_scores.behavioral_drift = 0)) := by
  have hsid2 : ¬(p.session_id = "" ∨ p.session_id.data.all pyIsSpace = true) := by
    rintro (h | h)
    · rw [h] at hsid
      simp at hsid
    · rw [h] at hsid
      exact Bool.noConfusion hsid
  have ht2 : ¬(p.timestamp ≤ 0) := not_le.mpr ht
  unfold validate
  split_ifs with h1 h2 h3 h4 h5
  · rw [false_iff]
    intro hr
    obtain ⟨hz, hnz⟩ := h5
    obtain ⟨hi, hf, hd⟩ := hr.2.2.2.2 hz
    rcases hnz with h | h | h
    · exact h hi
    · exact h hf
    · exact h hd
  · refine ⟨fun _ => ⟨h1, h2, h3, h4, fun hz => ?_⟩, fun _ => rfl⟩
    by_contra hc
    exact h5 ⟨hz, by tauto⟩
  · rw [false_iff]
    intro hr
    exact h4 hr.2.2.2.1
  · rw [false_iff]
    intro hr
    exact h3 hr.2.2.1
  · rw [false_iff]
    intro hr
    exact h2 hr.2.1
  · rw [false_iff]
    intro hr
    exact h1 hr.1

theorem c8_validate_accepts_iff_witness :
    ("abc-123").data.all pyIsSpace = false ∧
    (0 : ℚ) < 5 ∧
    ((validate ⟨5, 50, ⟨10, 20, 30, 30⟩, "abc-123"⟩).1 = true ↔
      ((0 ≤ (50 : ℚ) ∧ (50 : ℚ) ≤ 100) ∧
       (0 ≤ (10 : ℚ) ∧ (10 : ℚ) ≤ 100) ∧
       (0 ≤ (20 : ℚ) ∧ (20 : ℚ) ≤ 100) ∧
       (0 ≤ (30 : ℚ) ∧ (30 : ℚ) ≤ 100) ∧
       ((50 : ℚ) = 0 → (10 : ℚ) = 0 ∧ (20 : ℚ) = 0 ∧ (30 : ℚ) = 0))) :=
  ⟨by decide, by norm_num,
    c8_validate_accepts_iff ⟨5, 50, ⟨10, 20, 30, 30⟩, "abc-123"⟩ (by decide) (by norm_num)⟩

/-- Claim C8, counterexample to the claim as stated: the record with
session id `" "` (non-empty), timestamp 1 and all scores zero satisfies
every condition of the claim's acceptance criterion, yet the validator
rejects it: `not payload.session_id.strip()` treats a whitespace-only
session id like an empty one. -/
theorem c8_blank_session_rejected :
    ((⟨1, 0, ⟨0, 0, 0, 0⟩, " "⟩ : RiskData).session_id ≠ "") ∧
    (0 : ℚ) < (⟨1, 0, ⟨0, 0, 0, 0⟩, " "⟩ : RiskData).timestamp ∧
    (validate ⟨1, 0, ⟨0, 0, 0, 0⟩, " "⟩).1 = false := by
  refine ⟨by decide, by norm_num, ?_⟩
  norm_num [validate]
  decide

end SentinelX
